import Mathlib

/-!
Verification of the search orchestration core of the `researchbot` repository
(`research_agent.py`): the `SearchEngine` class (Google Custom Search primary,
DuckDuckGo fallback with retry/backoff and backend rotation) and the pagination
and history logic of `AIResearchAgent.research`.

External effects (HTTP calls to Google / DuckDuckGo, scraping, AI analysis,
time, randomness) are modelled as oracles passed in as explicit parameters;
mutations of the `SearchEngine` instance are modelled by threading an `SEState`
value; sleeps and client invocations are recorded in an event trace.
-/

/-- Canonical search record produced by normalization
(`title`/`url`/`snippet`; news records additionally carry `date`/`source`,
modelled as `Option` since generic records have no such keys). -/
structure SearchRecord where
  title : String
  url : String
  snippet : String
  date : Option String := none
  source : Option String := none
deriving DecidableEq, Repr

/-- A raw hit as returned by the DuckDuckGo library (`ddgs.text` / `ddgs.news`):
a dictionary where any of these keys may be absent. -/
structure RawHit where
  title : Option String := none
  href : Option String := none
  url : Option String := none
  body : Option String := none
  snippet : Option String := none
  date : Option String := none
  source : Option String := none
deriving DecidableEq, Repr

/-- A raw item of a Google Custom Search API response (`data['items']`). -/
structure GItem where
  title : Option String := none
  link : Option String := none
  snippet : Option String := none
deriving DecidableEq, Repr

/-- Python string truthiness for `x or y` on strings:
empty string is falsy, so `x or y` keeps `x` unless it is empty. -/
def orStr (a b : String) : String := if a = "" then b else a

/-- Python truthiness of an optional string (`None` and `""` are falsy). -/
def truthy : Option String → Bool
  | none => false
  | some s => !(s == "")

/-- Normalization of a generic text hit
(`r.get('title','')`, `r.get('href','') or r.get('url','')`,
`r.get('body','') or r.get('snippet','')`), lines 252-256 of the source. -/
def normalizeText (r : RawHit) : SearchRecord :=
  { title := r.title.getD ""
    url := orStr (r.href.getD "") (r.url.getD "")
    snippet := orStr (r.body.getD "") (r.snippet.getD "") }

/-- Normalization of a news hit (lines 300-306 of the source). -/
def normalizeNews (r : RawHit) : SearchRecord :=
  { title := r.title.getD ""
    url := r.url.getD ""
    snippet := orStr (r.body.getD "") (r.snippet.getD "")
    date := some (r.date.getD "")
    source := some (r.source.getD "") }

/-- Normalization of a Google item (lines 183-187 of the source:
`item.get('title', 'Untitled')`, `item.get('link','')`, `item.get('snippet','')`). -/
def normalizeGoogle (it : GItem) : SearchRecord :=
  { title := it.title.getD "Untitled"
    url := it.link.getD ""
    snippet := it.snippet.getD "" }

/-- Mutable state of a `SearchEngine` instance: the two Google credentials
(environment strings), the preferred engine, the fallback backend rotation
index `_backend_idx`, and a generation counter standing for the current
DDGS client object (`self.ddgs`), bumped each time `_make_ddgs` is called. -/
structure SEState where
  google_api_key : Option String
  google_cse_id : Option String
  preferred_engine : String
  backend_idx : Nat
  ddgsGen : Nat
deriving DecidableEq, Repr

/-- The fallback backend rotation `_backends_cycle = ["api", "html", "lite"]`. -/
def backendsCycle : List String := ["api", "html", "lite"]

/-- Backend selected for the current rotation index
(`self._backends_cycle[self._backend_idx % len(self._backends_cycle)]`). -/
def backendAt (i : Nat) : String := backendsCycle.getD (i % backendsCycle.length) ""

/-- Observable events of one orchestration: client invocations, individual
backend attempts, and sleeps (the fixed 1s sleep vs the backoff sleep of
`_retry_backoff`, recorded with its attempt number). -/
inductive Ev where
  | callGoogle
  | callDDG
  | callNews
  | attemptDDG (attempt : Nat) (backend : String)
  | attemptNews (attempt : Nat)
  | sleepBackoff (attempt : Nat)
  | sleepFixed1
deriving DecidableEq, Repr

/-- Outcome of one DuckDuckGo library call: a successful list of raw hits,
a `DuckDuckGoSearchException` (with whether its message is rate-limit
flavored, i.e. contains "Ratelimit" or "429"), or any other exception. -/
inductive DDGResponse where
  | success (hits : List RawHit)
  | ddgError (isRateLimit : Bool)
  | otherError
deriving DecidableEq, Repr

/-- Outcome of one Google Custom Search HTTP request: a parsed response with
its `items` list, an HTTP error raised by `raise_for_status` (with status
code), or any other exception (transport, JSON, ...). -/
inductive GoogleResponse where
  | items (its : List GItem)
  | httpError (code : Nat)
  | otherError
deriving DecidableEq, Repr

/-- Environment oracle for `ddgs.text`: response as a function of the attempt
number, the query, the backend in use, and the (clamped) max-results cap. -/
def DDGOracle := Nat → String → String → Nat → DDGResponse

/-- Environment oracle for the Google API: response as a function of the
request index (0-based; `start_index = i*10+1`), the query and the `num`
parameter. -/
def GoogleOracle := Nat → String → Nat → GoogleResponse

/-- Environment oracle for `ddgs.news`: response as a function of the attempt
number, the query and the (clamped) max-results cap. -/
def NewsOracle := Nat → String → Nat → DDGResponse

/-- Sleep duration computed by `_retry_backoff` (lines 140-146):
`base = min(16, 2 ** attempt)`, `sleep_time = max(1, base + jitter)` where
`jitter = random.uniform(-0.5, 0.5)`; modelled over the rationals. -/
def retry_sleep_time (attempt : Nat) (jitter : ℚ) : ℚ :=
  let base : ℚ := min 16 (2 ^ attempt)
  max 1 (base + jitter)

/-- Pagination step of `AIResearchAgent.research` (lines 394-396):
`page_results = all_results[start:start+per_page] if all_results else []` and
`has_more = bool(all_results and len(all_results) > (start + per_page))`. -/
def paginate (all : List SearchRecord) (page per_page : Nat) : List SearchRecord × Bool :=
  let start := page * per_page
  ((if all.isEmpty then [] else (all.drop start).take per_page),
   !all.isEmpty && decide (start + per_page < all.length))

/-- Retry loop body of `_search_duckduckgo` (lines 240-283), run over the
remaining attempt numbers of `for attempt in range(5)`. On success the
normalized records are returned immediately. On a rate-limit flavored
`DuckDuckGoSearchException` the backend index advances one rotation slot, the
client is reconstructed, and (if attempts remain) the `_retry_backoff` sleep
runs before retrying; when attempts are exhausted the except-branch falls
through and reconstructs the client once more before the loop ends. On any
other `DuckDuckGoSearchException` or generic exception the client is
reconstructed and (if attempts remain) a fixed 1s sleep runs before retrying
with the same backend. After five failures the empty list is returned. -/
def runDDG (d : DDGOracle) (q : String) (mr : Nat) :
    List Nat → SEState → SEState × List Ev × List SearchRecord
  | [], s => (s, [], [])
  | a :: rest, s =>
    let bk := backendAt s.backend_idx
    match d a q bk mr with
    | .success hits => (s, [.attemptDDG a bk], hits.map normalizeText)
    | .ddgError true =>
      let s1 : SEState :=
        { s with backend_idx := (s.backend_idx + 1) % backendsCycle.length
                 ddgsGen := s.ddgsGen + 1 }
      if a < 4 then
        let r := runDDG d q mr rest s1
        (r.1, .attemptDDG a bk :: .sleepBackoff a :: r.2.1, r.2.2)
      else
        ({ s1 with ddgsGen := s1.ddgsGen + 1 }, [.attemptDDG a bk], [])
    | .ddgError false =>
      let s1 : SEState := { s with ddgsGen := s.ddgsGen + 1 }
      if a < 4 then
        let r := runDDG d q mr rest s1
        (r.1, .attemptDDG a bk :: .sleepFixed1 :: r.2.1, r.2.2)
      else
        (s1, [.attemptDDG a bk], [])
    | .otherError =>
      let s1 : SEState := { s with ddgsGen := s.ddgsGen + 1 }
      if a < 4 then
        let r := runDDG d q mr rest s1
        (r.1, .attemptDDG a bk :: .sleepFixed1 :: r.2.1, r.2.2)
      else
        (s1, [.attemptDDG a bk], [])

/-- The `_search_duckduckgo` method (lines 233-283): caps `max_results` to
`max(1, min(max_results, 20))` and runs the five-attempt retry loop. -/
def search_duckduckgo (d : DDGOracle) (q : String) (max_results : Nat) (s : SEState) :
    SEState × List Ev × List SearchRecord :=
  let mr := max 1 (min max_results 20)
  let r := runDDG d q mr [0, 1, 2, 3, 4] s
  (r.1, .callDDG :: r.2.1, r.2.2)

/-- Substring containment, for the placeholder check on the CSE id. -/
def strContainsSub (s pat : String) : Bool := decide (pat.toList <:+: s.toList)

/-- ASCII lowercasing of a string (Python's `str.lower()` for the values at
hand), mapped over the character list. -/
def strToLower (s : String) : String := String.mk (s.toList.map Char.toLower)

/-- Request loop of `_search_google` (lines 163-190): up to `num_requests`
paginated API requests, each appending all returned items; stops early when
`items` is empty or `max_results` is reached; any exception aborts the whole
call (`none`, caught by the enclosing handler which returns `[]`). -/
def googleLoop (g : GoogleOracle) (q : String) (max_results : Nat) :
    List Nat → List SearchRecord → Option (List SearchRecord)
  | [], acc => some acc
  | i :: rest, acc =>
    let num := min 10 (max_results - acc.length)
    match g i q num with
    | .items its =>
      if its.isEmpty then some acc
      else
        let acc2 := acc ++ its.map normalizeGoogle
        if max_results ≤ acc2.length then some acc2
        else googleLoop g q max_results rest acc2
    | .httpError _ => none
    | .otherError => none

/-- The `_search_google` method (lines 148-202): returns `[]` when either
credential is falsy or the CSE id contains the placeholder text; otherwise
performs `min((max_results+9)//10, 3)` requests and truncates the collected
results to `max_results`; every exception is caught and yields `[]`. -/
def search_google (g : GoogleOracle) (q : String) (max_results : Nat) (s : SEState) :
    List SearchRecord :=
  if !(truthy s.google_api_key && truthy s.google_cse_id) then []
  else if strContainsSub (strToLower (s.google_cse_id.getD ""))
      "your_custom_search_engine_id" then []
  else
    let num_requests := min ((max_results + 9) / 10) 3
    match googleLoop g q max_results (List.range num_requests) [] with
    | some results => results.take max_results
    | none => []

/-- The `search` method (lines 204-231): forced DuckDuckGo when the preference
is "duckduckgo"; forced Google (with fallback on empty result or missing
credentials) when it is "google"; otherwise the auto path, which tries Google
first iff both credentials are truthy and falls back to DuckDuckGo on an empty
Google result. A `callGoogle` event records each `_search_google` invocation. -/
def search (g : GoogleOracle) (d : DDGOracle) (q : String) (max_results : Nat) (s : SEState) :
    SEState × List Ev × List SearchRecord :=
  if s.preferred_engine = "duckduckgo" then
    search_duckduckgo d q max_results s
  else if s.preferred_engine = "google" then
    if truthy s.google_api_key && truthy s.google_cse_id then
      let gr := search_google g q max_results s
      if !gr.isEmpty then (s, [.callGoogle], gr)
      else
        let r := search_duckduckgo d q max_results s
        (r.1, .callGoogle :: r.2.1, r.2.2)
    else
      search_duckduckgo d q max_results s
  else
    if truthy s.google_api_key && truthy s.google_cse_id then
      let gr := search_google g q max_results s
      if !gr.isEmpty then (s, [.callGoogle], gr)
      else
        let r := search_duckduckgo d q max_results s
        (r.1, .callGoogle :: r.2.1, r.2.2)
    else
      search_duckduckgo d q max_results s

/-- Retry loop body of `news_search` (lines 290-325): same five-attempt shape
as the text search, but the client is reconstructed and the `_retry_backoff`
sleep is used for every failure kind (rate-limit errors additionally
reconstruct the client a second time when attempts are exhausted); the backend
index is never touched. Returns `none` when all five attempts fail (so the
caller runs the generic-search fallback), and `some` of the value returned
from inside the loop otherwise. -/
def runNews (n : NewsOracle) (q : String) (mr : Nat) :
    List Nat → SEState → SEState × List Ev × Option (List SearchRecord)
  | [], s => (s, [], none)
  | a :: rest, s =>
    match n a q mr with
    | .success hits => (s, [.attemptNews a], some (hits.map normalizeNews))
    | .ddgError true =>
      let s1 : SEState := { s with ddgsGen := s.ddgsGen + 1 }
      if a < 4 then
        let r := runNews n q mr rest s1
        (r.1, .attemptNews a :: .sleepBackoff a :: r.2.1, r.2.2)
      else
        ({ s1 with ddgsGen := s1.ddgsGen + 1 }, [.attemptNews a], none)
    | .ddgError false =>
      let s1 : SEState := { s with ddgsGen := s.ddgsGen + 1 }
      if a < 4 then
        let r := runNews n q mr rest s1
        (r.1, .attemptNews a :: .sleepBackoff a :: r.2.1, r.2.2)
      else
        (s1, [.attemptNews a], none)
    | .otherError =>
      let s1 : SEState := { s with ddgsGen := s.ddgsGen + 1 }
      if a < 4 then
        let r := runNews n q mr rest s1
        (r.1, .attemptNews a :: .sleepBackoff a :: r.2.1, r.2.2)
      else
        (s1, [.attemptNews a], none)

/-- The `news_search` method (lines 285-334): caps `max_results` to
`max(1, min(max_results, 20))`, retries the news endpoint five times, and on
total exhaustion falls back to the generic `search` with `" news"` appended to
the query (line 330), returning whatever that call returns. -/
def news_search (g : GoogleOracle) (d : DDGOracle) (n : NewsOracle)
    (q : String) (max_results : Nat) (s : SEState) :
    SEState × List Ev × List SearchRecord :=
  let mr := max 1 (min max_results 20)
  let r := runNews n q mr [0, 1, 2, 3, 4] s
  match r.2.2 with
  | some res => (r.1, .callNews :: r.2.1, res)
  | none =>
    let r2 := search g d (q ++ " news") mr r.1
    (r2.1, .callNews :: (r.2.1 ++ r2.2.1), r2.2.2)

/-- A successfully scraped source as appended to `research_data['sources']`
(only scrapes with `success == True` are kept). -/
structure Scraped where
  url : String
  title : String
  text : String
deriving DecidableEq, Repr

/-- The `research_data` dictionary built by `AIResearchAgent.research`
(lines 398-406, with the optional `error` and `analysis` keys added later). -/
structure ResearchData where
  query : String
  timestamp : String
  search_results : List SearchRecord
  sources : List Scraped
  page : Nat
  per_page : Nat
  has_more : Bool
  error : Option String := none
  analysis : Option String := none
deriving DecidableEq, Repr

/-- State of an `AIResearchAgent`: its search engine, AI settings, and the
`research_history` list. -/
structure Agent where
  engine : SEState
  use_ai : Bool
  ai_backend : String
  research_history : List ResearchData
deriving DecidableEq, Repr

/-- Python `a or b` on integers (0 is falsy), for `per_page or max_sources or 5`. -/
def orNat (a b : Nat) : Nat := if a = 0 then b else a

/-- The `AIResearchAgent.research` method (lines 351-446). External
collaborators appear as oracles: the search oracles, the scraper
(`scrape url = some src` iff `scrape_url` returned with `success == True` and
did not raise), the AI analysis (a total function, since `_analyze_with_ai`
catches all exceptions and returns a string), and the timestamp. Pagination
sizing follows lines 377-382; the page slice and `has_more` follow lines
394-396 (the `paginate` definition); on an empty page slice an `error` entry
is recorded and the data appended and returned without scraping or analysis
(lines 408-411); otherwise scraping runs for `standard`/`deep` depths, AI
analysis for `deep` with `use_ai`, and the data is appended and returned
(lines 413-446). -/
def research (g : GoogleOracle) (d : DDGOracle) (n : NewsOracle)
    (scrape : String → Option Scraped) (analyze : ResearchData → String) (ts : String)
    (ag : Agent) (q : String) (depth : String) (max_sources : Nat) (news : Bool)
    (page : Int) (per_page : Option Nat) : Agent × ResearchData :=
  let pp := orNat (per_page.getD 0) (orNat max_sources 5)
  let pg : Nat := page.toNat
  let fetch_n := max (pp * (pg + 2)) (pp * 3)
  let sr := if news then news_search g d n q fetch_n ag.engine
            else search g d q fetch_n ag.engine
  let all_results := sr.2.2
  let page_results := (paginate all_results pg pp).1
  let has_more := (paginate all_results pg pp).2
  let base : ResearchData :=
    { query := q, timestamp := ts, search_results := page_results, sources := []
      page := pg, per_page := pp, has_more := has_more }
  if page_results.isEmpty then
    let rd : ResearchData := { base with error := some "No search results found" }
    ({ ag with engine := sr.1, research_history := ag.research_history ++ [rd] }, rd)
  else
    let rd1 : ResearchData :=
      if depth = "standard" ∨ depth = "deep" then
        { base with sources := page_results.filterMap (fun r => scrape r.url) }
      else base
    let rd2 : ResearchData :=
      if depth = "deep" ∧ ag.use_ai then { rd1 with analysis := some (analyze rd1) } else rd1
    ({ ag with engine := sr.1, research_history := ag.research_history ++ [rd2] }, rd2)

/-- Classifier for individual fallback (text) backend attempts. -/
def isAttemptDDG : Ev → Bool
  | .attemptDDG _ _ => true
  | _ => false

/-- Classifier for backoff sleeps (`_retry_backoff` invocations). -/
def isBackoffSleep : Ev → Bool
  | .sleepBackoff _ => true
  | _ => false

/-- A DuckDuckGo library call outcome that raises (either exception kind). -/
def isFailureResp : DDGResponse → Bool
  | .success _ => false
  | _ => true

/-- A rate-limit flavored failure. -/
def isRateLimitResp : DDGResponse → Bool
  | .ddgError true => true
  | _ => false

/-- A Google request outcome that raises. -/
def isGoogleFailure : GoogleResponse → Bool
  | .items _ => false
  | _ => true

theorem runDDG_call_not_mem (d : DDGOracle) (q : String) (mr : Nat) (e : Ev)
    (he : e = Ev.callGoogle ∨ e = Ev.callDDG ∨ e = Ev.callNews) :
    ∀ (attempts : List Nat) (s : SEState), e ∉ (runDDG d q mr attempts s).2.1 := by
  intro attempts
  induction attempts with
  | nil => intro s; simp [runDDG]
  | cons a rest ih =>
    intro s
    have hne1 : ∀ b bk, e ≠ Ev.attemptDDG b bk := by
      rcases he with h | h | h <;> subst h <;> intro b bk <;> simp
    have hne2 : ∀ b, e ≠ Ev.sleepBackoff b := by
      rcases he with h | h | h <;> subst h <;> intro b <;> simp
    have hne3 : e ≠ Ev.sleepFixed1 := by
      rcases he with h | h | h <;> subst h <;> simp
    rcases hd : d a q (backendAt s.backend_idx) mr with hits | rl | _
    · simp [runDDG, hd, hne1]
    · cases rl <;> by_cases h4 : a < 4 <;>
        simp [runDDG, hd, h4, hne1, hne2, hne3, ih]
    · by_cases h4 : a < 4 <;> simp [runDDG, hd, h4, hne1, hne3, ih]

theorem runDDG_attempt_count (d : DDGOracle) (q : String) (mr : Nat) :
    ∀ (attempts : List Nat) (s : SEState),
      ((runDDG d q mr attempts s).2.1.filter isAttemptDDG).length ≤ attempts.length := by
  intro attempts
  induction attempts with
  | nil => intro s; simp [runDDG]
  | cons a rest ih =>
    intro s
    rcases hd : d a q (backendAt s.backend_idx) mr with hits | rl | _
    · simp [runDDG, hd, isAttemptDDG]
    · cases rl <;> by_cases h4 : a < 4 <;>
        simp [runDDG, hd, h4, isAttemptDDG] <;>
        exact ih _
    · by_cases h4 : a < 4 <;> simp [runDDG, hd, h4, isAttemptDDG]
      exact ih _

theorem runDDG_all_fail (d : DDGOracle) (q : String) (mr : Nat)
    (hf : ∀ a bk, isFailureResp (d a q bk mr) = true) :
    ∀ (attempts : List Nat) (s : SEState), (runDDG d q mr attempts s).2.2 = [] := by
  intro attempts
  induction attempts with
  | nil => intro s; simp [runDDG]
  | cons a rest ih =>
    intro s
    rcases hd : d a q (backendAt s.backend_idx) mr with hits | rl | _
    · have := hf a (backendAt s.backend_idx)
      rw [hd] at this
      simp [isFailureResp] at this
    · cases rl <;> by_cases h4 : a < 4 <;> simp [runDDG, hd, h4, ih]
    · by_cases h4 : a < 4 <;> simp [runDDG, hd, h4, ih]

theorem runDDG_frame (d : DDGOracle) (q : String) (mr : Nat) :
    ∀ (attempts : List Nat) (s : SEState),
      (runDDG d q mr attempts s).1.google_api_key = s.google_api_key ∧
      (runDDG d q mr attempts s).1.google_cse_id = s.google_cse_id ∧
      (runDDG d q mr attempts s).1.preferred_engine = s.preferred_engine := by
  intro attempts
  induction attempts with
  | nil => intro s; simp [runDDG]
  | cons a rest ih =>
    intro s
    rcases hd : d a q (backendAt s.backend_idx) mr with hits | rl | _
    · simp [runDDG, hd]
    · cases rl <;> by_cases h4 : a < 4 <;> simp [runDDG, hd, h4, ih]
    · by_cases h4 : a < 4 <;> simp [runDDG, hd, h4, ih]

theorem runDDG_no_ratelimit_backend_idx (d : DDGOracle) (q : String) (mr : Nat)
    (hn : ∀ a bk, isRateLimitResp (d a q bk mr) = false) :
    ∀ (attempts : List Nat) (s : SEState),
      (runDDG d q mr attempts s).1.backend_idx = s.backend_idx := by
  intro attempts
  induction attempts with
  | nil => intro s; simp [runDDG]
  | cons a rest ih =>
    intro s
    rcases hd : d a q (backendAt s.backend_idx) mr with hits | rl | _
    · simp [runDDG, hd]
    · cases rl
      · by_cases h4 : a < 4 <;> simp [runDDG, hd, h4, ih]
      · have := hn a (backendAt s.backend_idx)
        rw [hd] at this
        simp [isRateLimitResp] at this
    · by_cases h4 : a < 4 <;> simp [runDDG, hd, h4, ih]

theorem runDDG_records_congr (d : DDGOracle) (q : String) (mr : Nat) :
    ∀ (attempts : List Nat) (s t : SEState), s.backend_idx = t.backend_idx →
      (runDDG d q mr attempts s).2.2 = (runDDG d q mr attempts t).2.2 := by
  intro attempts
  induction attempts with
  | nil => intro s t _; simp [runDDG]
  | cons a rest ih =>
    intro s t hbi
    rcases hd : d a q (backendAt s.backend_idx) mr with hits | rl | _ <;>
      rw [hbi] at hd
    · simp [runDDG, hbi, hd]
    · cases rl <;> by_cases h4 : a < 4 <;>
        simp [runDDG, hbi, hd, h4] <;> exact ih _ _ (by simp [hbi])
    · by_cases h4 : a < 4 <;> simp [runDDG, hbi, hd, h4]
      exact ih _ _ (by simp [hbi])

theorem runNews_frame (n : NewsOracle) (q : String) (mr : Nat) :
    ∀ (attempts : List Nat) (s : SEState),
      (runNews n q mr attempts s).1.google_api_key = s.google_api_key ∧
      (runNews n q mr attempts s).1.google_cse_id = s.google_cse_id ∧
      (runNews n q mr attempts s).1.preferred_engine = s.preferred_engine ∧
      (runNews n q mr attempts s).1.backend_idx = s.backend_idx := by
  intro attempts
  induction attempts with
  | nil => intro s; simp [runNews]
  | cons a rest ih =>
    intro s
    rcases hd : n a q mr with hits | rl | _
    · simp [runNews, hd]
    · cases rl <;> by_cases h4 : a < 4 <;> simp [runNews, hd, h4, ih]
    · by_cases h4 : a < 4 <;> simp [runNews, hd, h4, ih]

theorem runNews_all_fail (n : NewsOracle) (q : String) (mr : Nat)
    (hf : ∀ a, a < 5 → isFailureResp (n a q mr) = true) :
    ∀ (attempts : List Nat), (∀ a ∈ attempts, a < 5) →
      ∀ (s : SEState), (runNews n q mr attempts s).2.2 = none := by
  intro attempts
  induction attempts with
  | nil => intro _ s; simp [runNews]
  | cons a rest ih =>
    intro hlt s
    rcases hd : n a q mr with hits | rl | _
    · have := hf a (hlt a (by simp))
      rw [hd] at this
      simp [isFailureResp] at this
    · cases rl <;> by_cases h4 : a < 4 <;>
        simp [runNews, hd, h4, ih (fun b hb => hlt b (by simp [hb]))]
    · by_cases h4 : a < 4 <;>
        simp [runNews, hd, h4, ih (fun b hb => hlt b (by simp [hb]))]

theorem search_duckduckgo_counts (d : DDGOracle) (q : String) (mr : Nat) (s : SEState) :
    (search_duckduckgo d q mr s).2.1.count Ev.callGoogle = 0 ∧
    (search_duckduckgo d q mr s).2.1.count Ev.callDDG = 1 := by
  have hg := runDDG_call_not_mem d q (max 1 (min mr 20)) Ev.callGoogle (Or.inl rfl)
    [0, 1, 2, 3, 4] s
  have hd := runDDG_call_not_mem d q (max 1 (min mr 20)) Ev.callDDG (Or.inr (Or.inl rfl))
    [0, 1, 2, 3, 4] s
  simp [search_duckduckgo, List.count_cons, List.count_eq_zero.mpr hg,
    List.count_eq_zero.mpr hd]

theorem search_records_congr (g : GoogleOracle) (d : DDGOracle) (q : String) (mr : Nat)
    (s t : SEState) (h1 : s.google_api_key = t.google_api_key)
    (h2 : s.google_cse_id = t.google_cse_id) (h3 : s.preferred_engine = t.preferred_engine)
    (h4 : s.backend_idx = t.backend_idx) :
    (search g d q mr s).2.2 = (search g d q mr t).2.2 := by
  obtain ⟨k1, c1, p1, b1, g1⟩ := s
  obtain ⟨k2, c2, p2, b2, g2⟩ := t
  simp only at h1 h2 h3 h4
  subst h1; subst h2; subst h3; subst h4
  have hdd : (search_duckduckgo d q mr ⟨k1, c1, p1, b1, g1⟩).2.2 =
      (search_duckduckgo d q mr ⟨k1, c1, p1, b1, g2⟩).2.2 := by
    simp only [search_duckduckgo]
    exact runDDG_records_congr d q _ _ _ _ rfl
  have hgg : search_google g q mr ⟨k1, c1, p1, b1, g1⟩ =
      search_google g q mr ⟨k1, c1, p1, b1, g2⟩ := rfl
  simp only [search, hgg]
  split_ifs <;> simp [hdd]


/-- C7: for every attempt ≥ 0 and every jitter in [-0.5, +0.5], the backoff
delay of `_retry_backoff` equals `max(1, min(16, 2^attempt) + jitter)` and lies
in the interval [1, 16.5] seconds. -/
theorem retry_backoff_delay_bounds (attempt : Nat) (jitter : ℚ)
    (h1 : -(1/2) ≤ jitter) (h2 : jitter ≤ 1/2) :
    retry_sleep_time attempt jitter = max 1 (min 16 ((2 : ℚ) ^ attempt) + jitter) ∧
    1 ≤ retry_sleep_time attempt jitter ∧ retry_sleep_time attempt jitter ≤ 33/2 := by
  refine ⟨rfl, le_max_left _ _, ?_⟩
  have hmin : min (16 : ℚ) (2 ^ attempt) ≤ 16 := min_le_left _ _
  have hsum : min (16 : ℚ) (2 ^ attempt) + jitter ≤ 33/2 := by linarith
  simp only [retry_sleep_time]
  exact max_le (by norm_num) hsum

theorem retry_backoff_delay_bounds_witness :
    retry_sleep_time 3 (1/4) = max 1 (min 16 ((2 : ℚ) ^ 3) + 1/4) ∧
    1 ≤ retry_sleep_time 3 (1/4) ∧ retry_sleep_time 3 (1/4) ≤ 33/2 :=
  retry_backoff_delay_bounds 3 (1/4) (by norm_num) (by norm_num)

/-- C4: for every flat result list, page ≥ 0 and perPage > 0, with
start = page*perPage, the pagination step returns a slice of length
min(perPage, max(0, len(all) - start)) — hence at most perPage records — and a
hasMore flag equal to (len(all) > start + perPage). -/
theorem paginate_page_slice (all : List SearchRecord) (page per_page : Nat)
    (hpp : 0 < per_page) :
    ((paginate all page per_page).1.length : ℤ) =
      min (per_page : ℤ) (max 0 ((all.length : ℤ) - ((page * per_page : Nat) : ℤ))) ∧
    (paginate all page per_page).1.length ≤ per_page ∧
    (paginate all page per_page).2 = decide (page * per_page + per_page < all.length) := by
  by_cases hall : all.isEmpty
  · have h0 : all = [] := List.isEmpty_iff.mp hall
    subst h0
    refine ⟨?_, by simp [paginate], by simp [paginate]⟩
    have hl : (paginate ([] : List SearchRecord) page per_page).1 = [] := by
      simp [paginate]
    rw [hl]
    simp only [List.length_nil]
    omega
  · have h1 : (paginate all page per_page).1 =
        (all.drop (page * per_page)).take per_page := by
      simp [paginate, hall]
    have h2 : (paginate all page per_page).2 =
        decide (page * per_page + per_page < all.length) := by
      simp [paginate, hall]
    rw [h1, h2]
    refine ⟨?_, ?_, rfl⟩
    · simp only [List.length_take, List.length_drop]
      omega
    · simp only [List.length_take, List.length_drop]
      omega

theorem paginate_page_slice_witness :
    (0 : Nat) < 3 ∧
    (((paginate (List.replicate 9 { title := "t", url := "u", snippet := "s" }) 2 3).1.length : ℤ) =
      min (3 : ℤ) (max 0 ((9 : ℤ) - ((2 * 3 : Nat) : ℤ))) ∧
    (paginate (List.replicate 9 { title := "t", url := "u", snippet := "s" }) 2 3).1.length ≤ 3 ∧
    (paginate (List.replicate 9 { title := "t", url := "u", snippet := "s" }) 2 3).2 =
      decide (2 * 3 + 3 < 9)) := by
  refine ⟨by norm_num, ?_⟩
  have h := paginate_page_slice
    (List.replicate 9 { title := "t", url := "u", snippet := "s" }) 2 3 (by norm_num)
  simpa using h

/-- C2: when the preferred engine is "duckduckgo" (fallback mode), the
orchestrator never invokes the primary Google client, for any configuration
(even with valid credentials present): the outcome is exactly the fallback
client's outcome. -/
theorem fallback_mode_never_primary (g : GoogleOracle) (d : DDGOracle)
    (q : String) (mr : Nat) (s : SEState) (hmode : s.preferred_engine = "duckduckgo") :
    search g d q mr s = search_duckduckgo d q mr s ∧
    (search g d q mr s).2.1.count Ev.callGoogle = 0 := by
  have h : search g d q mr s = search_duckduckgo d q mr s := by
    simp [search, hmode]
  refine ⟨h, ?_⟩
  rw [h]
  exact (search_duckduckgo_counts d q mr s).1

theorem fallback_mode_never_primary_witness :
    (SEState.mk (some "key") (some "cse-id") "duckduckgo" 0 0).preferred_engine =
      "duckduckgo" ∧
    (search (fun _ _ _ => .items [{ title := some "g" }])
        (fun _ _ _ _ => .success [{ title := some "d" }]) "q" 5
        (SEState.mk (some "key") (some "cse-id") "duckduckgo" 0 0) =
      search_duckduckgo (fun _ _ _ _ => .success [{ title := some "d" }]) "q" 5
        (SEState.mk (some "key") (some "cse-id") "duckduckgo" 0 0) ∧
    (search (fun _ _ _ => .items [{ title := some "g" }])
        (fun _ _ _ _ => .success [{ title := some "d" }]) "q" 5
        (SEState.mk (some "key") (some "cse-id") "duckduckgo" 0 0)).2.1.count
        Ev.callGoogle = 0) :=
  ⟨rfl, fallback_mode_never_primary (fun _ _ _ => .items [{ title := some "g" }])
    (fun _ _ _ _ => .success [{ title := some "d" }]) "q" 5
    (SEState.mk (some "key") (some "cse-id") "duckduckgo" 0 0) rfl⟩

/-- C1: in auto mode, when both primary credentials are configured the
orchestrator calls the primary client first; a non-empty primary result is
returned without invoking the fallback client; an empty primary result makes
the orchestrator invoke the fallback client exactly once and return its
records; when credentials are not configured the fallback client is invoked
directly (exactly once) with no primary call. -/
theorem auto_mode_primary_first (g : GoogleOracle) (d : DDGOracle)
    (q : String) (mr : Nat) (s : SEState) (hmode : s.preferred_engine = "auto") :
    ((truthy s.google_api_key && truthy s.google_cse_id) = true →
      (search_google g q mr s ≠ [] →
        search g d q mr s = (s, [Ev.callGoogle], search_google g q mr s)) ∧
      (search_google g q mr s = [] →
        (search g d q mr s).2.1.count Ev.callGoogle = 1 ∧
        (search g d q mr s).2.1.count Ev.callDDG = 1 ∧
        (search g d q mr s).2.2 = (search_duckduckgo d q mr s).2.2)) ∧
    ((truthy s.google_api_key && truthy s.google_cse_id) = false →
      (search g d q mr s).2.1.count Ev.callGoogle = 0 ∧
      (search g d q mr s).2.1.count Ev.callDDG = 1 ∧
      search g d q mr s = search_duckduckgo d q mr s) := by
  constructor
  · intro hcfg
    constructor
    · intro hne
      simp [search, hmode, hcfg, hne]
    · intro heq
      have h : search g d q mr s =
          ((search_duckduckgo d q mr s).1,
           Ev.callGoogle :: (search_duckduckgo d q mr s).2.1,
           (search_duckduckgo d q mr s).2.2) := by
        simp [search, hmode, hcfg, heq]
      rw [h]
      have hc := search_duckduckgo_counts d q mr s
      simp [List.count_cons, hc.1, hc.2]
  · intro hcfg
    have h : search g d q mr s = search_duckduckgo d q mr s := by
      simp [search, hmode, hcfg]
    rw [h]
    have hc := search_duckduckgo_counts d q mr s
    exact ⟨hc.1, hc.2, rfl⟩

theorem auto_mode_primary_first_witness :
    (SEState.mk (some "key") (some "cse-id") "auto" 0 0).preferred_engine = "auto" ∧
    (((truthy (SEState.mk (some "key") (some "cse-id") "auto" 0 0).google_api_key &&
        truthy (SEState.mk (some "key") (some "cse-id") "auto" 0 0).google_cse_id) = true →
      (search_google (fun _ _ _ => .items [{ link := some "u" }]) "q" 5
          (SEState.mk (some "key") (some "cse-id") "auto" 0 0) ≠ [] →
        search (fun _ _ _ => .items [{ link := some "u" }])
            (fun _ _ _ _ => .success []) "q" 5
            (SEState.mk (some "key") (some "cse-id") "auto" 0 0) =
          (SEState.mk (some "key") (some "cse-id") "auto" 0 0, [Ev.callGoogle],
           search_google (fun _ _ _ => .items [{ link := some "u" }]) "q" 5
             (SEState.mk (some "key") (some "cse-id") "auto" 0 0))) ∧
      (search_google (fun _ _ _ => .items [{ link := some "u" }]) "q" 5
          (SEState.mk (some "key") (some "cse-id") "auto" 0 0) = [] →
        (search (fun _ _ _ => .items [{ link := some "u" }])
            (fun _ _ _ _ => .success []) "q" 5
            (SEState.mk (some "key") (some "cse-id") "auto" 0 0)).2.1.count
            Ev.callGoogle = 1 ∧
        (search (fun _ _ _ => .items [{ link := some "u" }])
            (fun _ _ _ _ => .success []) "q" 5
            (SEState.mk (some "key") (some "cse-id") "auto" 0 0)).2.1.count
            Ev.callDDG = 1 ∧
        (search (fun _ _ _ => .items [{ link := some "u" }])
            (fun _ _ _ _ => .success []) "q" 5
            (SEState.mk (some "key") (some "cse-id") "auto" 0 0)).2.2 =
          (search_duckduckgo (fun _ _ _ _ => .success []) "q" 5
            (SEState.mk (some "key") (some "cse-id") "auto" 0 0)).2.2)) ∧
    ((truthy (SEState.mk (some "key") (some "cse-id") "auto" 0 0).google_api_key &&
        truthy (SEState.mk (some "key") (some "cse-id") "auto" 0 0).google_cse_id) = false →
      (search (fun _ _ _ => .items [{ link := some "u" }])
          (fun _ _ _ _ => .success []) "q" 5
          (SEState.mk (some "key") (some "cse-id") "auto" 0 0)).2.1.count
          Ev.callGoogle = 0 ∧
      (search (fun _ _ _ => .items [{ link := some "u" }])
          (fun _ _ _ _ => .success []) "q" 5
          (SEState.mk (some "key") (some "cse-id") "auto" 0 0)).2.1.count
          Ev.callDDG = 1 ∧
      search (fun _ _ _ => .items [{ link := some "u" }])
          (fun _ _ _ _ => .success []) "q" 5
          (SEState.mk (some "key") (some "cse-id") "auto" 0 0) =
        search_duckduckgo (fun _ _ _ _ => .success []) "q" 5
          (SEState.mk (some "key") (some "cse-id") "auto" 0 0))) :=
  ⟨rfl, auto_mode_primary_first (fun _ _ _ => .items [{ link := some "u" }])
    (fun _ _ _ _ => .success []) "q" 5
    (SEState.mk (some "key") (some "cse-id") "auto" 0 0) rfl⟩

/-- C3: the fallback fetch makes at most 5 attempts; a first-attempt success
returns the normalized records immediately with no sleep and no state change;
a rate-limit failure advances the backend index one rotation slot, reconstructs
the client, sleeps per the backoff policy and retries; any other failure
reconstructs the client, sleeps the fixed 1s and retries on the same backend;
five failures yield the empty list; and in the concrete scenario (query "ai",
maxResults 5, primary unconfigured, rate-limit on attempt 0, 3-item success on
attempt 1) the result has exactly 3 normalized records, the backend index has
advanced by 1, and exactly one backoff sleep occurred. -/
theorem fallback_retry_behavior :
    (∀ (d : DDGOracle) (q : String) (mr : Nat) (s : SEState),
      ((search_duckduckgo d q mr s).2.1.filter isAttemptDDG).length ≤ 5) ∧
    (∀ (d : DDGOracle) (q : String) (mr : Nat) (s : SEState) (hits : List RawHit),
      d 0 q (backendAt s.backend_idx) (max 1 (min mr 20)) = .success hits →
      search_duckduckgo d q mr s =
        (s, [Ev.callDDG, Ev.attemptDDG 0 (backendAt s.backend_idx)],
         hits.map normalizeText)) ∧
    (∀ (d : DDGOracle) (q : String) (mr : Nat) (s : SEState) (hits : List RawHit),
      d 0 q (backendAt s.backend_idx) (max 1 (min mr 20)) = .ddgError true →
      d 1 q (backendAt ((s.backend_idx + 1) % backendsCycle.length))
          (max 1 (min mr 20)) = .success hits →
      search_duckduckgo d q mr s =
        ({ s with backend_idx := (s.backend_idx + 1) % backendsCycle.length
                  ddgsGen := s.ddgsGen + 1 },
         [Ev.callDDG, Ev.attemptDDG 0 (backendAt s.backend_idx), Ev.sleepBackoff 0,
          Ev.attemptDDG 1 (backendAt ((s.backend_idx + 1) % backendsCycle.length))],
         hits.map normalizeText)) ∧
    (∀ (d : DDGOracle) (q : String) (mr : Nat) (s : SEState) (hits : List RawHit),
      d 0 q (backendAt s.backend_idx) (max 1 (min mr 20)) = .otherError →
      d 1 q (backendAt s.backend_idx) (max 1 (min mr 20)) = .success hits →
      search_duckduckgo d q mr s =
        ({ s with ddgsGen := s.ddgsGen + 1 },
         [Ev.callDDG, Ev.attemptDDG 0 (backendAt s.backend_idx), Ev.sleepFixed1,
          Ev.attemptDDG 1 (backendAt s.backend_idx)],
         hits.map normalizeText)) ∧
    (∀ (d : DDGOracle) (q : String) (mr : Nat) (s : SEState),
      (∀ a bk, isFailureResp (d a q bk (max 1 (min mr 20))) = true) →
      (search_duckduckgo d q mr s).2.2 = []) ∧
    ((search (fun _ _ _ => GoogleResponse.otherError)
        (fun a _ _ _ => if a = 0 then DDGResponse.ddgError true
          else DDGResponse.success
            [{ title := some "t1", href := some "u1", body := some "b1" },
             { title := some "t2", href := some "u2", body := some "b2" },
             { title := some "t3", href := some "u3", body := some "b3" }])
        "ai" 5 (SEState.mk none none "auto" 0 0)).2.2.length = 3 ∧
     (search (fun _ _ _ => GoogleResponse.otherError)
        (fun a _ _ _ => if a = 0 then DDGResponse.ddgError true
          else DDGResponse.success
            [{ title := some "t1", href := some "u1", body := some "b1" },
             { title := some "t2", href := some "u2", body := some "b2" },
             { title := some "t3", href := some "u3", body := some "b3" }])
        "ai" 5 (SEState.mk none none "auto" 0 0)).2.2 =
       [{ title := "t1", url := "u1", snippet := "b1" },
        { title := "t2", url := "u2", snippet := "b2" },
        { title := "t3", url := "u3", snippet := "b3" }] ∧
     (search (fun _ _ _ => GoogleResponse.otherError)
        (fun a _ _ _ => if a = 0 then DDGResponse.ddgError true
          else DDGResponse.success
            [{ title := some "t1", href := some "u1", body := some "b1" },
             { title := some "t2", href := some "u2", body := some "b2" },
             { title := some "t3", href := some "u3", body := some "b3" }])
        "ai" 5 (SEState.mk none none "auto" 0 0)).1.backend_idx = 1 ∧
     ((search (fun _ _ _ => GoogleResponse.otherError)
        (fun a _ _ _ => if a = 0 then DDGResponse.ddgError true
          else DDGResponse.success
            [{ title := some "t1", href := some "u1", body := some "b1" },
             { title := some "t2", href := some "u2", body := some "b2" },
             { title := some "t3", href := some "u3", body := some "b3" }])
        "ai" 5 (SEState.mk none none "auto" 0 0)).2.1.filter isBackoffSleep).length = 1) := by
  refine ⟨?_, ?_, ?_, ?_, ?_, ?_⟩
  · intro d q mr s
    simpa [search_duckduckgo] using
      runDDG_attempt_count d q (max 1 (min mr 20)) [0, 1, 2, 3, 4] s
  · intro d q mr s hits h0
    simp [search_duckduckgo, runDDG, h0]
  · intro d q mr s hits h0 h1
    simp [search_duckduckgo, runDDG, h0, h1]
  · intro d q mr s hits h0 h1
    simp [search_duckduckgo, runDDG, h0, h1]
  · intro d q mr s hf
    simpa [search_duckduckgo] using
      runDDG_all_fail d q (max 1 (min mr 20)) hf [0, 1, 2, 3, 4] s
  · refine ⟨by decide, by decide, by decide, by decide⟩

theorem fallback_retry_behavior_witness :
    ((fun a _ _ _ => if a = 0 then DDGResponse.ddgError true
        else DDGResponse.success [{ title := some "t1" }] : DDGOracle)
      0 "q" (backendAt (SEState.mk none none "auto" 0 0).backend_idx)
      (max 1 (min 5 20)) = .ddgError true) ∧
    search_duckduckgo
      (fun a _ _ _ => if a = 0 then DDGResponse.ddgError true
        else DDGResponse.success [{ title := some "t1" }]) "q" 5
      (SEState.mk none none "auto" 0 0) =
    ({ SEState.mk none none "auto" 0 0 with
        backend_idx := ((SEState.mk none none "auto" 0 0).backend_idx + 1) %
          backendsCycle.length
        ddgsGen := (SEState.mk none none "auto" 0 0).ddgsGen + 1 },
     [Ev.callDDG,
      Ev.attemptDDG 0 (backendAt (SEState.mk none none "auto" 0 0).backend_idx),
      Ev.sleepBackoff 0,
      Ev.attemptDDG 1 (backendAt (((SEState.mk none none "auto" 0 0).backend_idx + 1) %
        backendsCycle.length))],
     ([{ title := some "t1" }] : List RawHit).map normalizeText) :=
  ⟨by decide,
   (fallback_retry_behavior.2.2.1)
     (fun a _ _ _ => if a = 0 then DDGResponse.ddgError true
       else DDGResponse.success [{ title := some "t1" }]) "q" 5
     (SEState.mk none none "auto" 0 0) [{ title := some "t1" }]
     (by decide) (by decide)⟩

theorem googleLoop_all_fail (g : GoogleOracle) (q : String) (mr : Nat)
    (hg : ∀ i q2 num, isGoogleFailure (g i q2 num) = true) :
    ∀ (reqs : List Nat) (acc : List SearchRecord),
      (googleLoop g q mr reqs acc = some acc ∧ reqs = []) ∨
      googleLoop g q mr reqs acc = none := by
  intro reqs acc
  cases reqs with
  | nil => exact Or.inl ⟨rfl, rfl⟩
  | cons i rest =>
    right
    have hf := hg i q (min 10 (mr - acc.length))
    rcases hgi : g i q (min 10 (mr - acc.length)) with its | c | _
    · rw [hgi] at hf
      simp [isGoogleFailure] at hf
    · simp [googleLoop, hgi]
    · simp [googleLoop, hgi]

theorem search_google_all_fail (g : GoogleOracle) (q : String) (mr : Nat) (s : SEState)
    (hg : ∀ i q2 num, isGoogleFailure (g i q2 num) = true) :
    search_google g q mr s = [] := by
  simp only [search_google]
  split_ifs with h1 h2
  · rfl
  · rfl
  · cases hr : List.range (min ((mr + 9) / 10) 3) with
    | nil => simp [googleLoop]
    | cons i rest =>
      rcases googleLoop_all_fail g q mr hg (i :: rest) [] with ⟨_, hcons⟩ | hnone
      · simp at hcons
      · simp [hnone]

theorem search_all_fail (g : GoogleOracle) (d : DDGOracle) (q : String) (mr : Nat)
    (s : SEState) (hg : ∀ i q2 num, isGoogleFailure (g i q2 num) = true)
    (hd : ∀ a q2 bk m, isFailureResp (d a q2 bk m) = true) :
    (search g d q mr s).2.2 = [] := by
  have hddg : (search_duckduckgo d q mr s).2.2 = [] := by
    simpa [search_duckduckgo] using
      runDDG_all_fail d q (max 1 (min mr 20))
        (fun a bk => hd a q bk (max 1 (min mr 20))) [0, 1, 2, 3, 4] s
  have hgoog := search_google_all_fail g q mr s hg
  simp only [search]
  split_ifs <;> simp [hddg, hgoog]

theorem runDDG_len_le (d : DDGOracle) (q : String) (mr : Nat)
    (hd : ∀ a bk hits, d a q bk mr = .success hits → hits.length ≤ mr) :
    ∀ (attempts : List Nat) (s : SEState), (runDDG d q mr attempts s).2.2.length ≤ mr := by
  intro attempts
  induction attempts with
  | nil => intro s; simp [runDDG]
  | cons a rest ih =>
    intro s
    rcases hresp : d a q (backendAt s.backend_idx) mr with hits | rl | _
    · simpa [runDDG, hresp] using hd a (backendAt s.backend_idx) hits hresp
    · cases rl <;> by_cases h4 : a < 4 <;> simp [runDDG, hresp, h4, ih]
    · by_cases h4 : a < 4 <;> simp [runDDG, hresp, h4, ih]

theorem search_google_len_le (g : GoogleOracle) (q : String) (mr : Nat) (s : SEState) :
    (search_google g q mr s).length ≤ mr := by
  simp only [search_google]
  split_ifs with h1 h2
  · simp
  · simp
  · cases hl : googleLoop g q mr (List.range (min ((mr + 9) / 10) 3)) [] with
    | none => simp
    | some res =>
      simp only [List.length_take]
      exact Nat.min_le_left _ _

theorem search_records_cases (g : GoogleOracle) (d : DDGOracle) (q : String) (mr : Nat)
    (s : SEState) :
    (search g d q mr s).2.2 = search_google g q mr s ∨
    (search g d q mr s).2.2 = (search_duckduckgo d q mr s).2.2 := by
  simp only [search]
  split_ifs <;> first
  | exact Or.inl rfl
  | exact Or.inr rfl

theorem search_state_cases (g : GoogleOracle) (d : DDGOracle) (q : String) (mr : Nat)
    (s : SEState) :
    (search g d q mr s).1 = s ∨ (search g d q mr s).1 = (search_duckduckgo d q mr s).1 := by
  simp only [search]
  split_ifs <;> first
  | exact Or.inl rfl
  | exact Or.inr rfl

/-- C5: provider failures never escape to the caller (in this embedding the
operations are total functions into record lists — no exception path exists);
when every backend attempt fails (DuckDuckGo exceptions of either flavor,
Google HTTP errors including 429, transport errors), both the generic search
and the news search return the empty sequence as the uniform failure signal. -/
theorem provider_failures_yield_empty (g : GoogleOracle) (d : DDGOracle) (n : NewsOracle)
    (q : String) (mr : Nat) (s : SEState)
    (hg : ∀ i q2 num, isGoogleFailure (g i q2 num) = true)
    (hd : ∀ a q2 bk m, isFailureResp (d a q2 bk m) = true)
    (hn : ∀ a q2 m, isFailureResp (n a q2 m) = true) :
    (search g d q mr s).2.2 = [] ∧ (news_search g d n q mr s).2.2 = [] := by
  refine ⟨search_all_fail g d q mr s hg hd, ?_⟩
  have hnone := runNews_all_fail n q (max 1 (min mr 20))
    (fun a _ => hn a q (max 1 (min mr 20))) [0, 1, 2, 3, 4] (by decide) s
  simp only [news_search, hnone]
  exact search_all_fail g d (q ++ " news") (max 1 (min mr 20)) _ hg hd

theorem provider_failures_yield_empty_witness :
    (search (fun _ _ _ => GoogleResponse.httpError 429)
        (fun _ _ _ _ => DDGResponse.ddgError true)
        "q" 10 (SEState.mk (some "key") (some "cse-id") "auto" 0 0)).2.2 = [] ∧
    (news_search (fun _ _ _ => GoogleResponse.httpError 429)
        (fun _ _ _ _ => DDGResponse.ddgError true)
        (fun _ _ _ => DDGResponse.otherError)
        "q" 10 (SEState.mk (some "key") (some "cse-id") "auto" 0 0)).2.2 = [] :=
  provider_failures_yield_empty (fun _ _ _ => GoogleResponse.httpError 429)
    (fun _ _ _ _ => DDGResponse.ddgError true) (fun _ _ _ => DDGResponse.otherError)
    "q" 10 (SEState.mk (some "key") (some "cse-id") "auto" 0 0)
    (fun _ _ _ => rfl) (fun _ _ _ _ => rfl) (fun _ _ _ => rfl)

/-- C6 (counterexample): the claim that the effective maxResults is clamped
into [1,20] on every path — so that no successful fetch ever returns more than
20 records — is false: the primary (Google) path never applies the [1,20]
clamp, and with maxResults = 25 and an API honoring the `num` parameter the
orchestrator returns 25 records. -/
theorem max_results_cap_counterexample :
    20 < (search
        (fun _ _ num => GoogleResponse.items
          (List.replicate num { title := some "t", link := some "u", snippet := some "s" }))
        (fun _ _ _ _ => DDGResponse.success []) "q" 25
        (SEState.mk (some "key") (some "cse-id") "auto" 0 0)).2.2.length := by decide

/-- C6 (amended): the [1,20] clamp is applied on the fallback path only: the
fallback fetch never returns more than `max(1, min(maxResults, 20))` records
(hence never more than 20) provided the backend honors its max-results
parameter; the primary fetch truncates to the raw requested maxResults (which
may exceed 20); consequently for maxResults in [1,20] every mode returns at
most maxResults records. -/
theorem max_results_cap_amended (g : GoogleOracle) (d : DDGOracle)
    (q : String) (mr : Nat) (s : SEState)
    (hd : ∀ a q2 bk m hits, d a q2 bk m = .success hits → hits.length ≤ m) :
    (search_google g q mr s).length ≤ mr ∧
    (search_duckduckgo d q mr s).2.2.length ≤ max 1 (min mr 20) ∧
    (search_duckduckgo d q mr s).2.2.length ≤ 20 ∧
    (1 ≤ mr → mr ≤ 20 → (search g d q mr s).2.2.length ≤ mr) := by
  have hddg : (search_duckduckgo d q mr s).2.2.length ≤ max 1 (min mr 20) := by
    simpa [search_duckduckgo] using
      runDDG_len_le d q (max 1 (min mr 20))
        (fun a bk hits h => hd a q bk (max 1 (min mr 20)) hits h) [0, 1, 2, 3, 4] s
  refine ⟨search_google_len_le g q mr s, hddg, by omega, ?_⟩
  intro h1 h20
  have hclamp : max 1 (min mr 20) = mr := by omega
  rcases search_records_cases g d q mr s with hc | hc
  · rw [hc]
    exact search_google_len_le g q mr s
  · rw [hc]
    omega

theorem max_results_cap_amended_witness :
    (search (fun _ _ _ => GoogleResponse.otherError)
        (fun _ _ _ m => DDGResponse.success (List.replicate m {}))
        "q" 5 (SEState.mk none none "auto" 0 0)).2.2.length ≤ 5 :=
  (max_results_cap_amended (fun _ _ _ => GoogleResponse.otherError)
    (fun _ _ _ m => DDGResponse.success (List.replicate m {}))
    "q" 5 (SEState.mk none none "auto" 0 0)
    (fun _ _ _ m hits h => by injection h with h2; rw [← h2]; simp)).2.2.2
    (by norm_num) (by norm_num)

/-- C8: when all 5 news retry attempts fail, the news search does not fail
hard: it returns exactly what the generic (non-news) search returns for the
query with " news" appended (at the clamped max-results), given the same
backends. -/
theorem news_exhaustion_generic_fallback (g : GoogleOracle) (d : DDGOracle) (n : NewsOracle)
    (q : String) (mr : Nat) (s : SEState)
    (hn : ∀ a, a < 5 → isFailureResp (n a q (max 1 (min mr 20))) = true) :
    (news_search g d n q mr s).2.2 =
      (search g d (q ++ " news") (max 1 (min mr 20)) s).2.2 := by
  have hnone := runNews_all_fail n q (max 1 (min mr 20)) hn [0, 1, 2, 3, 4] (by decide) s
  simp only [news_search, hnone]
  have hf := runNews_frame n q (max 1 (min mr 20)) [0, 1, 2, 3, 4] s
  exact search_records_congr g d (q ++ " news") (max 1 (min mr 20)) _ s
    hf.1 hf.2.1 hf.2.2.1 hf.2.2.2

theorem news_exhaustion_generic_fallback_witness :
    (news_search (fun _ _ _ => GoogleResponse.otherError)
        (fun _ _ _ _ => DDGResponse.success [{ title := some "t", href := some "u" }])
        (fun _ _ _ => DDGResponse.ddgError true)
        "ai" 5 (SEState.mk none none "auto" 0 0)).2.2 =
      (search (fun _ _ _ => GoogleResponse.otherError)
        (fun _ _ _ _ => DDGResponse.success [{ title := some "t", href := some "u" }])
        ("ai" ++ " news") (max 1 (min 5 20)) (SEState.mk none none "auto" 0 0)).2.2 :=
  news_exhaustion_generic_fallback (fun _ _ _ => GoogleResponse.otherError)
    (fun _ _ _ _ => DDGResponse.success [{ title := some "t", href := some "u" }])
    (fun _ _ _ => DDGResponse.ddgError true) "ai" 5 (SEState.mk none none "auto" 0 0)
    (fun _ _ => rfl)

/-- C9 (counterexample): the claim that the orchestrator's observable state
after a search call equals its state before the call is false: with a
rate-limit failure on attempt 0 and a success on attempt 1, the backend
rotation index is left advanced (and the client reconstructed) after the call
returns, so a second identical call starts from a different rotation slot. -/
theorem retry_state_counterexample :
    (search (fun _ _ _ => GoogleResponse.otherError)
        (fun a _ _ _ => if a = 0 then DDGResponse.ddgError true
          else DDGResponse.success [{ title := some "t" }])
        "q" 5 (SEState.mk none none "auto" 0 0)).1 ≠
      SEState.mk none none "auto" 0 0 := by decide

/-- C9 (amended): the attempt counter and the last error are locals of one
call and are discarded on return (they are not part of the engine state at
all); of the engine state, the credentials and the preferred engine are always
preserved, but the backend rotation index and the client object persist across
calls; when no rate-limit-flavored failure occurs during the call the backend
index is unchanged, so two such calls start from the same rotation slot. -/
theorem retry_state_amended (g : GoogleOracle) (d : DDGOracle)
    (q : String) (mr : Nat) (s : SEState) :
    (search g d q mr s).1.google_api_key = s.google_api_key ∧
    (search g d q mr s).1.google_cse_id = s.google_cse_id ∧
    (search g d q mr s).1.preferred_engine = s.preferred_engine ∧
    ((∀ a bk, isRateLimitResp (d a q bk (max 1 (min mr 20))) = false) →
      (search g d q mr s).1.backend_idx = s.backend_idx) := by
  rcases search_state_cases g d q mr s with hc | hc <;> rw [hc]
  · exact ⟨rfl, rfl, rfl, fun _ => rfl⟩
  · have hf := runDDG_frame d q (max 1 (min mr 20)) [0, 1, 2, 3, 4] s
    refine ⟨?_, ?_, ?_, ?_⟩
    · simpa [search_duckduckgo] using hf.1
    · simpa [search_duckduckgo] using hf.2.1
    · simpa [search_duckduckgo] using hf.2.2
    · intro hnr
      simpa [search_duckduckgo] using
        runDDG_no_ratelimit_backend_idx d q (max 1 (min mr 20))
          (fun a bk => hnr a bk) [0, 1, 2, 3, 4] s

theorem retry_state_amended_witness :
    (search (fun _ _ _ => GoogleResponse.otherError)
        (fun _ _ _ _ => DDGResponse.otherError)
        "q" 5 (SEState.mk none none "auto" 3 0)).1.backend_idx =
      (SEState.mk none none "auto" 3 0).backend_idx :=
  (retry_state_amended (fun _ _ _ => GoogleResponse.otherError)
    (fun _ _ _ _ => DDGResponse.otherError)
    "q" 5 (SEState.mk none none "auto" 3 0)).2.2.2 (fun _ _ => rfl)

/-- C10: every call to `research` appends exactly one entry to the agent's
research_history and returns that same entry; when the page slice is empty the
entry carries the error value 'No search results found', an empty sources list
and no AI analysis. -/
theorem research_appends_history (g : GoogleOracle) (d : DDGOracle) (n : NewsOracle)
    (scrape : String → Option Scraped) (analyze : ResearchData → String) (ts : String)
    (ag : Agent) (q depth : String) (max_sources : Nat) (news : Bool)
    (page : Int) (per_page : Option Nat) :
    (research g d n scrape analyze ts ag q depth max_sources news page per_page).1.research_history =
      ag.research_history ++
        [(research g d n scrape analyze ts ag q depth max_sources news page per_page).2] ∧
    ((research g d n scrape analyze ts ag q depth max_sources news page per_page).2.search_results = [] →
      (research g d n scrape analyze ts ag q depth max_sources news page per_page).2.error =
        some "No search results found" ∧
      (research g d n scrape analyze ts ag q depth max_sources news page per_page).2.sources = [] ∧
      (research g d n scrape analyze ts ag q depth max_sources news page per_page).2.analysis =
        none) := by
  simp only [research]
  split_ifs <;> refine ⟨rfl, fun h => ?_⟩ <;>
    first
      | exact ⟨rfl, rfl, rfl⟩
      | exact absurd (List.isEmpty_iff.mpr h) (by assumption)

theorem research_appends_history_witness :
    (research (fun _ _ _ => GoogleResponse.otherError)
        (fun _ _ _ _ => DDGResponse.otherError) (fun _ _ _ => DDGResponse.otherError)
        (fun _ => none) (fun _ => "") "ts"
        (Agent.mk (SEState.mk none none "auto" 0 0) true "ollama" [])
        "q" "standard" 5 false 0 none).2.error = some "No search results found" ∧
    (research (fun _ _ _ => GoogleResponse.otherError)
        (fun _ _ _ _ => DDGResponse.otherError) (fun _ _ _ => DDGResponse.otherError)
        (fun _ => none) (fun _ => "") "ts"
        (Agent.mk (SEState.mk none none "auto" 0 0) true "ollama" [])
        "q" "standard" 5 false 0 none).2.sources = [] ∧
    (research (fun _ _ _ => GoogleResponse.otherError)
        (fun _ _ _ _ => DDGResponse.otherError) (fun _ _ _ => DDGResponse.otherError)
        (fun _ => none) (fun _ => "") "ts"
        (Agent.mk (SEState.mk none none "auto" 0 0) true "ollama" [])
        "q" "standard" 5 false 0 none).2.analysis = none :=
  (research_appends_history (fun _ _ _ => GoogleResponse.otherError)
    (fun _ _ _ _ => DDGResponse.otherError) (fun _ _ _ => DDGResponse.otherError)
    (fun _ => none) (fun _ => "") "ts"
    (Agent.mk (SEState.mk none none "auto" 0 0) true "ollama" [])
    "q" "standard" 5 false 0 none).2 (by decide)
